import Mathlib

/-!
Shallow embedding of the PostMan Gmail-API test-runner repository:
`scripts/newman_runner.js` (the Newman run orchestrator and its CLI
entry point) and `scripts/setup_oauth.js` (the OAuth 2.0 helper).

JavaScript option values are modelled by `JSVal`; the `x || d` default
idiom is modelled by `jsOr`, which is faithful to JS truthiness for the
value shapes that occur in these scripts (numbers, booleans, strings,
arrays).  Objects used as string-keyed property bags are modelled as
functions `String → Option JSVal`.
-/

/-- A JavaScript value as it occurs in the runner scripts: a number, a
boolean, a string, an array of strings, or a string-to-string object
(used for the nested reporter configuration). -/
inductive JSVal where
  | num : Int → JSVal
  | bool : Bool → JSVal
  | str : String → JSVal
  | strList : List String → JSVal
  | pairs : List (String × String) → JSVal
deriving DecidableEq, Repr

/-- JavaScript truthiness restricted to the value shapes of `JSVal`:
`0`, `false` and `""` are falsy; arrays and objects are always truthy. -/
def JSVal.truthy : JSVal → Bool
  | .num n => n != 0
  | .bool b => b
  | .str s => s != ""
  | .strList _ => true
  | .pairs _ => true

/-- The JavaScript `x || d` default idiom on a possibly-absent property:
an absent (`undefined`) or falsy value yields the default `d`. -/
def jsOr (x : Option JSVal) (d : JSVal) : JSVal :=
  match x with
  | some v => if v.truthy then v else d
  | none => d

/-- `args[i] || d` for a string CLI argument: absent or empty gives `d`. -/
def jsOrStr (x : Option String) (d : String) : String :=
  match x with
  | some s => if s = "" then d else s
  | none => d

/-- `x || d` for a number that may be `NaN` (modelled as `none`):
`NaN` and `0` are falsy and give the default. -/
def jsOrNum (x : Option Int) (d : Int) : Int :=
  match x with
  | some v => if v = 0 then d else v
  | none => d

/-! ## `scripts/newman_runner.js` — run options (`runGmailTests`) -/

/-- The filesystem paths computed at the top of `runGmailTests`
(collection, environment and data files, and the three timestamped
report paths).  Their concrete values come from `path.join` over the
runner's directories and the current time, which are external inputs. -/
structure RunnerPaths where
  collectionPath : String
  environmentPath : String
  dataPath : String
  htmlReportPath : String
  jsonReportPath : String
  junitReportPath : String
deriving Repr

/-- The caller-supplied `options` object of `runGmailTests`, as a
string-keyed property bag (`undefined` properties are `none`). -/
abbrev RunnerOpts : Type := String → Option JSVal

/-- The object-literal fields of `runOptions` written before the final
`...options` spread in `runGmailTests` (newman_runner.js lines 38-59):
the computed paths, the reporter list and configuration, the defaulted
`iterationCount`, `delayRequest`, `timeout` and `bail`, and the fixed
`insecure` and `color` fields. -/
def baseRunOptions (p : RunnerPaths) (options : RunnerOpts) : String → Option JSVal :=
  fun k =>
    if k = "collection" then some (.str p.collectionPath)
    else if k = "environment" then some (.str p.environmentPath)
    else if k = "data" then some (.str p.dataPath)
    else if k = "reporters" then some (.strList ["html", "json", "junit", "cli"])
    else if k = "reporter" then
      some (.pairs [("html", p.htmlReportPath), ("json", p.jsonReportPath),
                    ("junit", p.junitReportPath)])
    else if k = "iterationCount" then some (jsOr (options "iterations") (.num 1))
    else if k = "delayRequest" then some (jsOr (options "delay") (.num 1000))
    else if k = "timeout" then some (jsOr (options "timeout") (.num 30000))
    else if k = "insecure" then some (.bool false)
    else if k = "bail" then some (jsOr (options "bail") (.bool false))
    else if k = "color" then some (.str "on")
    else none

/-- The complete `runOptions` object passed to `newman.run`: the object
literal of `baseRunOptions` followed by the `...options` spread, so any
key present in `options` overrides the literal's value for that key. -/
def runOptions (p : RunnerPaths) (options : RunnerOpts) : String → Option JSVal :=
  fun k =>
    match options k with
    | some v => some v
    | none => baseRunOptions p options k

/-- The `smokeOptions` object of `runSmokeTests` (newman_runner.js
lines 118-122). -/
def smokeOptions : RunnerOpts :=
  fun k =>
    if k = "folder" then some (.strList ["Authentication", "Profile & User Info"])
    else if k = "bail" then some (.bool true)
    else if k = "iterations" then some (.num 1)
    else none

/-- The `performanceOptions` object of `runPerformanceTests`
(newman_runner.js lines 133-137). -/
def performanceOptions (iterations : Int) : RunnerOpts :=
  fun k =>
    if k = "iterations" then some (.num iterations)
    else if k = "delay" then some (.num 500)
    else if k = "bail" then some (.bool false)
    else none

/-! ## `scripts/newman_runner.js` — run summary and exit decision -/

/-- The `summary.run.stats` counters read by `runGmailTests`. -/
structure RunStats where
  iterationsTotal : Nat
  requestsTotal : Nat
  requestsFailed : Nat
  assertionsTotal : Nat
  assertionsFailed : Nat
deriving DecidableEq, Repr

/-- One entry of `summary.run.failures`: an error name and message and
the failing source's name (absent when unknown). -/
structure RunFailure where
  errorName : String
  errorMessage : String
  sourceName : Option String
deriving DecidableEq, Repr

/-- The parts of the Newman run summary that `runGmailTests` reads:
the stats counters, the failure list, and the average response time
(`summary.run.timings.responseAverage`, a latency-derived value). -/
structure RunSummary where
  stats : RunStats
  failures : List RunFailure
  responseAverage : Int
deriving DecidableEq, Repr

/-- The outcome of a `newman.run` callback: either a run-level error
`err` (the promise is rejected) or a summary (the promise resolves with
it, regardless of what the summary records). -/
abbrev NewmanOutcome : Type := Except String RunSummary

/-- The verdict printed by `runGmailTests` lines 91-99: the run is
reported as all-passed exactly when `summary.run.failures` is empty. -/
def allTestsPassed (s : RunSummary) : Bool := s.failures.isEmpty

/-- The failure report printed by `runGmailTests` lines 92-96: one line
per entry of `summary.run.failures`, from the failure's error name,
error message and source name (`'Unknown'` when absent). -/
def failureReport (s : RunSummary) : List String :=
  s.failures.map fun f =>
    f.errorName ++ ": " ++ f.errorMessage ++ " @ " ++ (f.sourceName.getD "Unknown")

/-- The process exit code chosen by `main` (newman_runner.js lines
151-173): `0` when the awaited run resolved (Newman reported no
run-level error), `1` when it rejected and the `catch` ran.  The
summary's recorded failures are not consulted. -/
def mainExitCode (r : NewmanOutcome) : Nat :=
  match r with
  | .ok _ => 0
  | .error _ => 1

/-- The terminal run states named by the specification. -/
inductive TerminalState where
  | Completed
  | Failed
  | Aborted
deriving DecidableEq, Repr

/-- Second definition, following the spec's words (for comparison with
`mainExitCode`): the terminal state of a run that produced a summary is
`Aborted` when a bail was triggered, otherwise `Completed` when the
summary records no failed assertion and no failed request, otherwise
`Failed`. -/
def specTerminalState (bailTriggered : Bool) (s : RunSummary) : TerminalState :=
  if bailTriggered then .Aborted
  else if s.stats.assertionsFailed = 0 ∧ s.stats.requestsFailed = 0 then .Completed
  else .Failed

/-! ## `scripts/newman_runner.js` — CLI dispatch (`main`) -/

/-- Which runner method the CLI dispatch invokes, with its arguments. -/
inductive RunChoice where
  | smokeRun (environment : String)
  | performanceRun (environment : String) (iterations : Int)
  | fullRun (environment : String)
deriving DecidableEq, Repr

/-- `toLowerCase()` as applied to the CLI command argument (ASCII case
folding over the string's characters). -/
def toLowerCase (s : String) : String := String.mk (s.data.map Char.toLower)

/-- The decimal value of a run of digit characters. -/
def digitsToNat (ds : List Char) : Nat :=
  ds.foldl (fun acc c => 10 * acc + (c.toNat - 48)) 0

/-- JavaScript `parseInt` on a string (radix 10): skip leading
whitespace, read an optional sign and then a maximal run of decimal
digits; `NaN` (modelled as `none`) when no digit is read. -/
def parseIntJS (s : String) : Option Int :=
  let cs := s.data.dropWhile fun c => c = ' ' ∨ c = '\t' ∨ c = '\n' ∨ c = '\r'
  match cs with
  | '-' :: t =>
      let digits := t.takeWhile Char.isDigit
      if digits = [] then none else some (-(digitsToNat digits : Int))
  | '+' :: t =>
      let digits := t.takeWhile Char.isDigit
      if digits = [] then none else some (digitsToNat digits : Int)
  | t =>
      let digits := t.takeWhile Char.isDigit
      if digits = [] then none else some (digitsToNat digits : Int)

/-- `parseInt` applied to a possibly-absent CLI argument:
`parseInt(undefined)` is `NaN`. -/
def parseIntArg (a : Option String) : Option Int :=
  match a with
  | none => none
  | some s => parseIntJS s

/-- The CLI dispatch of newman_runner.js lines 147-165: `command` is
`args[0] || 'full'`, `environment` is `args[1] || 'Development'`; the
switch on `command.toLowerCase()` selects smoke, performance (with
`iterations = parseInt(args[2]) || 5`), or — for `'full'` and any other
command — the full run. -/
def cliDispatch (args : List String) : RunChoice :=
  if toLowerCase (jsOrStr (args.get? 0) "full") = "smoke" then
    .smokeRun (jsOrStr (args.get? 1) "Development")
  else if toLowerCase (jsOrStr (args.get? 0) "full") = "performance" then
    .performanceRun (jsOrStr (args.get? 1) "Development")
      (jsOrNum (parseIntArg (args.get? 2)) 5)
  else .fullRun (jsOrStr (args.get? 1) "Development")

/-! ## Folder selection (Run Sequencer)

The request selection itself is performed by the external Newman engine
on the collection file; neither is under `scripts/`. -/

/-- A folder of the collection: its name and its ordered requests. -/
structure Folder where
  name : String
  requests : List String
deriving DecidableEq, Repr

/-- Modelled from the spec: the Run Sequencer's folder selection — code
that lives in the Newman engine and the collection file, not under
`scripts/` — "Resolves the selected request set = requests whose
containing folder name is in `folderFilter` (or all, if unset),
preserving collection order." -/
def selectRequests (collection : List Folder) (folderFilter : Option (List String)) :
    List String :=
  match folderFilter with
  | none => (collection.map Folder.requests).flatten
  | some names =>
      ((collection.filter fun f => f.name ∈ names).map Folder.requests).flatten

/-! ## `scripts/setup_oauth.js` — `GmailOAuthHelper` -/

/-- The state of a `GmailOAuthHelper` instance: the constructor fields
(setup_oauth.js lines 9-20). -/
structure GmailOAuthHelper where
  clientId : String
  clientSecret : String
  redirectUri : String := "urn:ietf:wg:oauth:2.0:oob"
  tokenUrl : String := "https://oauth2.googleapis.com/token"
deriving DecidableEq, Repr

/-- A `fetch` request as built by the helper: URL, method, content type
and the form-encoded body fields in order. -/
structure FetchRequest where
  url : String
  method : String
  contentType : String
  bodyFields : List (String × String)
deriving DecidableEq, Repr

/-- The parts of a `fetch` response the helper reads: `ok`,
`statusText`, and the parsed JSON body as a string-keyed object. -/
structure HttpResponse where
  ok : Bool
  statusText : String
  jsonBody : List (String × JSVal)
deriving DecidableEq, Repr

/-- An observable side effect of a helper method. -/
inductive Effect where
  | networkCall : FetchRequest → Effect
  | diskWrite (path contents : String) : Effect
  | consoleLog (line : String) : Effect
deriving DecidableEq, Repr

/-- The result of running one helper method: the helper state afterwards,
the trace of side effects performed, and the value returned or the
message of the `Error` thrown. -/
structure OpResult where
  newState : GmailOAuthHelper
  trace : List Effect
  result : Except String (List (String × JSVal))
deriving Repr

/-- The `fetch` request built by `refreshAccessToken` (setup_oauth.js
lines 72-83): a form-encoded POST to `this.tokenUrl` with `client_id`,
`client_secret`, `refresh_token` and `grant_type=refresh_token`. -/
def refreshRequest (h : GmailOAuthHelper) (refreshToken : String) : FetchRequest :=
  { url := h.tokenUrl
    method := "POST"
    contentType := "application/x-www-form-urlencoded"
    bodyFields :=
      [("client_id", h.clientId), ("client_secret", h.clientSecret),
       ("refresh_token", refreshToken), ("grant_type", "refresh_token")] }

/-- The `fetch` request built by `exchangeCodeForTokens` (setup_oauth.js
lines 45-57): a form-encoded POST to `this.tokenUrl` with `client_id`,
`client_secret`, `code`, `grant_type=authorization_code` and
`redirect_uri`. -/
def exchangeRequest (h : GmailOAuthHelper) (authorizationCode : String) : FetchRequest :=
  { url := h.tokenUrl
    method := "POST"
    contentType := "application/x-www-form-urlencoded"
    bodyFields :=
      [("client_id", h.clientId), ("client_secret", h.clientSecret),
       ("code", authorizationCode), ("grant_type", "authorization_code"),
       ("redirect_uri", h.redirectUri)] }

/-- `refreshAccessToken` (setup_oauth.js lines 71-90): performs the one
`fetch` of `refreshRequest`; if `!response.ok` it throws
`Token refresh failed: <statusText>`, otherwise it returns the parsed
JSON body.  `this` is not mutated and nothing is written to disk;
`net` gives the response the network returns for a request. -/
def refreshAccessToken (h : GmailOAuthHelper) (refreshToken : String)
    (net : FetchRequest → HttpResponse) : OpResult :=
  let req := refreshRequest h refreshToken
  let response := net req
  { newState := h
    trace := [.networkCall req]
    result :=
      if response.ok then .ok response.jsonBody
      else .error ("Token refresh failed: " ++ response.statusText) }

/-- `exchangeCodeForTokens` (setup_oauth.js lines 44-64): performs the
one `fetch` of `exchangeRequest`; if `!response.ok` it throws
`Token exchange failed: <statusText>`, otherwise it returns the parsed
JSON body.  `this` is not mutated and nothing is written to disk. -/
def exchangeCodeForTokens (h : GmailOAuthHelper) (authorizationCode : String)
    (net : FetchRequest → HttpResponse) : OpResult :=
  let req := exchangeRequest h authorizationCode
  let response := net req
  { newState := h
    trace := [.networkCall req]
    result :=
      if response.ok then .ok response.jsonBody
      else .error ("Token exchange failed: " ++ response.statusText) }

/-- Does an effect persist anything beyond the run (a disk write)? -/
def Effect.isPersist : Effect → Bool
  | .diskWrite _ _ => true
  | _ => false

/-! ## Token cache (`getValidToken`) -/

/-- A bearer token with its expiry instant (seconds). -/
structure CachedToken where
  accessToken : String
  expiresAt : Int
deriving DecidableEq, Repr

/-- Modelled from the spec: the in-run token cache of the Credential
Manager — the run-time token logic lives in the collection file's
scripts, not under `scripts/` — "returns a cached token if its expiry
is more than a safety margin (e.g., 60s) in the future; otherwise calls
`acquireToken` again."  `getValidToken` returns the updated cache, the
token, and the number of token-acquisition calls made (0 or 1). -/
def safetyMarginSecs : Int := 60

/-- Modelled from the spec: `getValidToken` (see `safetyMarginSecs`). -/
def getValidToken (cache : Option CachedToken) (now : Int)
    (acquire : Unit → CachedToken) : Option CachedToken × CachedToken × Nat :=
  match cache with
  | some t =>
      if now + safetyMarginSecs < t.expiresAt then (some t, t, 0)
      else
        let fresh := acquire ()
        (some fresh, fresh, 1)
  | none =>
      let fresh := acquire ()
      (some fresh, fresh, 1)

/-! ## Concrete fixtures used by witnesses and counterexamples -/

/-- A sample set of computed paths (their concrete values are irrelevant
to every property proved below). -/
def somePaths : RunnerPaths :=
  { collectionPath := "collections/Gmail_API_E2E_Tests.postman_collection.json"
    environmentPath := "environments/Gmail_API_Development.postman_environment.json"
    dataPath := "data/test_data.csv"
    htmlReportPath := "reports/r.html"
    jsonReportPath := "reports/r.json"
    junitReportPath := "reports/r.xml" }

/-- An options object supplying `delay: 0` and nothing else. -/
def optsDelayZero : RunnerOpts :=
  fun k => if k = "delay" then some (.num 0) else none

/-- An options object supplying `timeout: 0` and nothing else. -/
def optsTimeoutZero : RunnerOpts :=
  fun k => if k = "timeout" then some (.num 0) else none

/-- An options object supplying `iterations: 3` and `delay: 0`. -/
def optsIter3Delay0 : RunnerOpts :=
  fun k =>
    if k = "iterations" then some (.num 3)
    else if k = "delay" then some (.num 0)
    else none

/-- An options object overriding the computed `reporters` list and
supplying the recognized alias `iterations`. -/
def optsOverride : RunnerOpts :=
  fun k =>
    if k = "reporters" then some (.strList ["cli"])
    else if k = "iterations" then some (.num 7)
    else none

/-- A summary recording one failed assertion (and no run-level error). -/
def failSummary : RunSummary :=
  { stats :=
      { iterationsTotal := 1, requestsTotal := 5, requestsFailed := 0,
        assertionsTotal := 10, assertionsFailed := 1 }
    failures :=
      [{ errorName := "AssertionError", errorMessage := "expected status 200",
         sourceName := some "Get User Profile" }]
    responseAverage := 120 }

/-- A fully passing stats record. -/
def okStats : RunStats :=
  { iterationsTotal := 1, requestsTotal := 5, requestsFailed := 0,
    assertionsTotal := 10, assertionsFailed := 0 }

/-- A passing summary with average latency 100 ms. -/
def summaryA : RunSummary := { stats := okStats, failures := [], responseAverage := 100 }

/-- The same passing summary except for its latency (250 ms). -/
def summaryB : RunSummary := { stats := okStats, failures := [], responseAverage := 250 }

/-- A helper instance with sample credentials. -/
def helper0 : GmailOAuthHelper := { clientId := "id-1", clientSecret := "secret-1" }

/-- A network that answers every request with `200 OK` and an empty
JSON object (no `access_token` field). -/
def okEmptyNet : FetchRequest → HttpResponse :=
  fun _ => { ok := true, statusText := "OK", jsonBody := [] }

/-- A network that answers every request with `200 OK` and a
well-formed token payload. -/
def tokenNet : FetchRequest → HttpResponse :=
  fun _ =>
    { ok := true, statusText := "OK",
      jsonBody :=
        [("access_token", .str "ya29.tok"), ("expires_in", .num 3599),
         ("token_type", .str "Bearer")] }

/-- A network that rejects every request with `400 Bad Request`. -/
def badNet : FetchRequest → HttpResponse :=
  fun _ => { ok := false, statusText := "Bad Request", jsonBody := [] }

/-- A five-folder collection matching the repository's test structure. -/
def smokeCollection : List Folder :=
  [{ name := "Authentication", requests := ["Refresh Access Token"] },
   { name := "Profile & User Info", requests := ["Get User Profile"] },
   { name := "Labels Management", requests := ["List Labels", "Create Label"] },
   { name := "Message Operations", requests := ["List Messages", "Send Email"] },
   { name := "Cleanup", requests := ["Delete Test Label"] }]

/-! ## Claims about `main`'s exit code (C1) -/

/-- Claim C1 (as stated) is false on the code: a run whose summary
records a failed assertion — terminal state `Failed` per the spec —
still reaches `process.exit(0)` because Newman's callback reported no
run-level error; the exit code is not 0-iff-`Completed`. -/
theorem C1_counterexample :
    specTerminalState false failSummary = TerminalState.Failed ∧
    mainExitCode (Except.ok failSummary) = 0 ∧
    ¬ (mainExitCode (Except.ok failSummary) = 0 ↔
        specTerminalState false failSummary = TerminalState.Completed) := by
  refine ⟨by decide, rfl, ?_⟩
  intro hiff
  have : specTerminalState false failSummary = TerminalState.Completed := hiff.mp rfl
  simp [specTerminalState, failSummary] at this

/-- Claim C1 (amended): the CLI entry point's exit code is 0 exactly
when the awaited Newman run resolved with a summary (no run-level
error), regardless of the failed assertions or requests the summary
records; it is non-zero exactly when `newman.run` reported an error and
the promise rejected. -/
theorem C1_exit_code_follows_newman_error (r : NewmanOutcome) :
    (mainExitCode r = 0 ↔ ∃ s, r = Except.ok s) ∧
    (mainExitCode r ≠ 0 ↔ ∃ e, r = Except.error e) := by
  cases r <;> simp [mainExitCode]

/-! ## Claims about the effective run configuration (C2) -/

/-- Claim C2 (as stated) is false on the code in two places: a supplied
`delay: 0` (a non-negative value) yields an effective `delayRequest` of
1000, not 0, because `options.delay || 1000` treats 0 as falsy; and a
supplied `timeout: 0` yields an effective `timeout` of 0, not the
default 30000, because the `...options` spread re-overrides the
computed `timeout` field with the raw supplied value. -/
theorem C2_counterexample :
    runOptions somePaths optsDelayZero "delayRequest" = some (JSVal.num 1000) ∧
    runOptions somePaths optsDelayZero "delayRequest" ≠ some (JSVal.num 0) ∧
    runOptions somePaths optsTimeoutZero "timeout" = some (JSVal.num 0) ∧
    runOptions somePaths optsTimeoutZero "timeout" ≠ some (JSVal.num 30000) := by
  refine ⟨rfl, ?_, rfl, ?_⟩ <;> decide

/-- Claim C2 (amended): for an options object that does not supply the
computed keys `iterationCount`/`delayRequest` themselves, the effective
run configuration uses: any nonzero `iterations` supplied, else 1
(including when 0 is supplied); any nonzero `delay` supplied, but 1000
when `delay` is absent or 0; any supplied `timeout` value verbatim
(including 0, via the spread collision on the raw key), else 30000; and
the supplied `bail` boolean, else `false`. -/
theorem C2_effective_config (p : RunnerPaths) (o : RunnerOpts)
    (hic : o "iterationCount" = none) (hdr : o "delayRequest" = none) :
    (∀ n : Int, o "iterations" = some (JSVal.num n) → n ≠ 0 →
        runOptions p o "iterationCount" = some (JSVal.num n)) ∧
    ((o "iterations" = none ∨ o "iterations" = some (JSVal.num 0)) →
        runOptions p o "iterationCount" = some (JSVal.num 1)) ∧
    (∀ n : Int, o "delay" = some (JSVal.num n) → n ≠ 0 →
        runOptions p o "delayRequest" = some (JSVal.num n)) ∧
    ((o "delay" = none ∨ o "delay" = some (JSVal.num 0)) →
        runOptions p o "delayRequest" = some (JSVal.num 1000)) ∧
    (∀ v : JSVal, o "timeout" = some v → runOptions p o "timeout" = some v) ∧
    (o "timeout" = none → runOptions p o "timeout" = some (JSVal.num 30000)) ∧
    (∀ b : Bool, o "bail" = some (JSVal.bool b) →
        runOptions p o "bail" = some (JSVal.bool b)) ∧
    (o "bail" = none → runOptions p o "bail" = some (JSVal.bool false)) := by
  refine ⟨?_, ?_, ?_, ?_, ?_, ?_, ?_, ?_⟩
  · intro n hn hne
    simp [runOptions, hic, baseRunOptions, hn, jsOr, JSVal.truthy, hne]
  · rintro (hn | hn) <;> simp [runOptions, hic, baseRunOptions, hn, jsOr, JSVal.truthy]
  · intro n hn hne
    simp [runOptions, hdr, baseRunOptions, hn, jsOr, JSVal.truthy, hne]
  · rintro (hn | hn) <;> simp [runOptions, hdr, baseRunOptions, hn, jsOr, JSVal.truthy]
  · intro v hv
    simp [runOptions, hv]
  · intro hv
    simp [runOptions, hv, baseRunOptions, jsOr]
  · intro b hb
    simp [runOptions, hb]
  · intro hb
    simp [runOptions, hb, baseRunOptions, jsOr, JSVal.truthy]

/-- Witness for C2: with `iterations: 3, delay: 0` supplied, the
effective configuration has `iterationCount = 3` and
`delayRequest = 1000`. -/
theorem C2_effective_config_witness :
    runOptions somePaths optsIter3Delay0 "iterationCount" = some (JSVal.num 3) ∧
    runOptions somePaths optsIter3Delay0 "delayRequest" = some (JSVal.num 1000) := by
  have h := C2_effective_config somePaths optsIter3Delay0 rfl rfl
  exact ⟨h.1 3 rfl (by decide), h.2.2.2.1 (Or.inr rfl)⟩

/-! ## Determinism of the run decision (C7) -/

/-- Claim C7: two runs whose Newman summaries agree on the stats and
failure list (i.e. identical server responses) yield the same
all-passed verdict, the same printed failure report, and the same exit
code; the latency field (`responseAverage`) does not influence any of
them. -/
theorem C7_identical_summaries_same_decisions (s1 s2 : RunSummary)
    (_hs : s1.stats = s2.stats) (hf : s1.failures = s2.failures) :
    allTestsPassed s1 = allTestsPassed s2 ∧
    failureReport s1 = failureReport s2 ∧
    mainExitCode (Except.ok s1) = mainExitCode (Except.ok s2) := by
  refine ⟨?_, ?_, rfl⟩ <;> simp [allTestsPassed, failureReport, hf]

/-- Witness for C7: two passing summaries that differ only in average
latency (100 ms vs 250 ms) get identical decisions. -/
theorem C7_identical_summaries_same_decisions_witness :
    allTestsPassed summaryA = allTestsPassed summaryB ∧
    failureReport summaryA = failureReport summaryB ∧
    mainExitCode (Except.ok summaryA) = mainExitCode (Except.ok summaryB) :=
  C7_identical_summaries_same_decisions summaryA summaryB rfl rfl

/-! ## Claims about the `...options` spread (C10) -/

/-- Claim C10: every key of the caller-supplied options object is
merged verbatim into the final run options after the computed fields
(so a colliding key silently overrides the computed value), and a
recognized alias appears both under its mapped name (with the `||`
default applied) and under its raw name. -/
theorem C10_spread_merges_options_last (p : RunnerPaths) (o : RunnerOpts) :
    (∀ k v, o k = some v → runOptions p o k = some v) ∧
    (o "iterationCount" = none →
        runOptions p o "iterationCount" = some (jsOr (o "iterations") (JSVal.num 1))) ∧
    (o "delayRequest" = none →
        runOptions p o "delayRequest" = some (jsOr (o "delay") (JSVal.num 1000))) := by
  refine ⟨?_, ?_, ?_⟩
  · intro k v hv
    simp [runOptions, hv]
  · intro h
    simp [runOptions, h, baseRunOptions]
  · intro h
    simp [runOptions, h, baseRunOptions]

/-- Witness for C10: an options object with `reporters: ['cli']` and
`iterations: 7` overrides the computed reporter list verbatim, keeps
its raw `iterations` key, and maps it to `iterationCount = 7`. -/
theorem C10_spread_merges_options_last_witness :
    runOptions somePaths optsOverride "reporters" = some (JSVal.strList ["cli"]) ∧
    runOptions somePaths optsOverride "iterations" = some (JSVal.num 7) ∧
    runOptions somePaths optsOverride "iterationCount" = some (JSVal.num 7) := by
  have h := C10_spread_merges_options_last somePaths optsOverride
  refine ⟨h.1 "reporters" (JSVal.strList ["cli"]) rfl,
          h.1 "iterations" (JSVal.num 7) rfl, ?_⟩
  have h2 := h.2.1 rfl
  simpa [optsOverride, jsOr, JSVal.truthy] using h2

/-! ## Claims about the CLI dispatch (C9) -/

/-- The environment argument carried by a dispatch choice. -/
def RunChoice.environment : RunChoice → String
  | .smokeRun e => e
  | .performanceRun e _ => e
  | .fullRun e => e

/-- Whichever branch the dispatch takes, its environment argument is
`args[1] || 'Development'`. -/
theorem cliDispatch_environment_arg (args : List String) :
    (cliDispatch args).environment = jsOrStr (args.get? 1) "Development" := by
  unfold cliDispatch
  split
  · rfl
  · split <;> rfl

/-- Claim C9: an absent mode argument, or any mode other than `smoke`
or `performance` case-insensitively, dispatches the full suite; an
absent environment argument yields `Development`; and for the
performance mode a missing or non-numeric third argument yields 5
iterations. -/
theorem C9_cli_fallbacks (args : List String) :
    (∀ c, args.get? 0 = some c → toLowerCase c ≠ "smoke" →
        toLowerCase c ≠ "performance" →
        cliDispatch args = .fullRun (jsOrStr (args.get? 1) "Development")) ∧
    (args.get? 0 = none → cliDispatch args = .fullRun "Development") ∧
    (args.get? 1 = none → (cliDispatch args).environment = "Development") ∧
    (∀ c, args.get? 0 = some c → toLowerCase c = "performance" →
        args.get? 2 = none →
        cliDispatch args = .performanceRun (jsOrStr (args.get? 1) "Development") 5) ∧
    (∀ c s, args.get? 0 = some c → toLowerCase c = "performance" →
        args.get? 2 = some s → parseIntJS s = none →
        cliDispatch args = .performanceRun (jsOrStr (args.get? 1) "Development") 5) := by
  refine ⟨?_, ?_, ?_, ?_, ?_⟩
  · intro c hc hsm hpf
    unfold cliDispatch
    rw [hc]
    by_cases hce : c = ""
    · subst hce
      rfl
    · simp only [jsOrStr, if_neg hce]
      rw [if_neg hsm, if_neg hpf]
  · intro h
    have hnil : args = [] := by
      cases args with
      | nil => rfl
      | cons a t => simp at h
    subst hnil
    rfl
  · intro h
    rw [cliDispatch_environment_arg, h]
    rfl
  · intro c hc hpf h2
    have hce : c ≠ "" := by
      intro hce
      rw [hce] at hpf
      exact absurd hpf (by decide)
    have hsm : toLowerCase c ≠ "smoke" := by
      rw [hpf]
      decide
    unfold cliDispatch
    rw [hc]
    simp only [jsOrStr, if_neg hce]
    rw [if_neg hsm, if_pos hpf, h2]
    rfl
  · intro c s hc hpf h2 hnan
    have hce : c ≠ "" := by
      intro hce
      rw [hce] at hpf
      exact absurd hpf (by decide)
    have hsm : toLowerCase c ≠ "smoke" := by
      rw [hpf]
      decide
    unfold cliDispatch
    rw [hc]
    simp only [jsOrStr, if_neg hce]
    rw [if_neg hsm, if_pos hpf, h2]
    simp only [parseIntArg, hnan]
    rfl

/-- Witness for C9: `['bogus']` runs the full suite in `Development`,
and `['Performance', 'Production', 'abc']` runs the performance mode in
`Production` with 5 iterations. -/
theorem C9_cli_fallbacks_witness :
    cliDispatch ["bogus"] = .fullRun "Development" ∧
    cliDispatch ["Performance", "Production", "abc"] =
      .performanceRun "Production" 5 := by
  constructor
  · exact (C9_cli_fallbacks ["bogus"]).1 "bogus" rfl (by decide) (by decide)
  · exact (C9_cli_fallbacks ["Performance", "Production", "abc"]).2.2.2.2
      "Performance" "abc" rfl (by decide) rfl (by decide)

/-! ## Claims about smoke-mode folder selection (C3) -/

/-- Filtering the collection's folders before flattening their request
lists selects a sublist of the full request sequence: the selected
requests keep their original relative order. -/
theorem selectRequests_filter_sublist (collection : List Folder) (p : Folder → Bool) :
    List.Sublist (((collection.filter p).map Folder.requests).flatten)
      ((collection.map Folder.requests).flatten) := by
  induction collection with
  | nil => simp
  | cons a t ih =>
      by_cases h : p a
      · simpa [h] using ih.append_left a.requests
      · simp only [List.filter_cons, h, if_false, List.map_cons, List.flatten_cons]
        exact ih.trans (List.sublist_append_right a.requests _)

/-- Claim C3: smoke mode passes `folder: ['Authentication', 'Profile &
User Info']` through to the final newman run options, and selection
under that filter takes only requests belonging to folders with those
two names, keeping their original relative collection order (the
selection is a sublist of the unfiltered request sequence). -/
theorem C3_smoke_folder_selection (p : RunnerPaths) (collection : List Folder) :
    runOptions p smokeOptions "folder" =
      some (JSVal.strList ["Authentication", "Profile & User Info"]) ∧
    (∀ r, r ∈ selectRequests collection (some ["Authentication", "Profile & User Info"]) →
      ∃ f, f ∈ collection ∧
        (f.name = "Authentication" ∨ f.name = "Profile & User Info") ∧
        r ∈ f.requests) ∧
    List.Sublist
      (selectRequests collection (some ["Authentication", "Profile & User Info"]))
      (selectRequests collection none) := by
  refine ⟨rfl, ?_, ?_⟩
  · intro r hr
    simp only [selectRequests, List.mem_flatten, List.mem_map] at hr
    obtain ⟨l, ⟨f, hf, rfl⟩, hrl⟩ := hr
    rw [List.mem_filter] at hf
    refine ⟨f, hf.1, ?_, hrl⟩
    simpa using hf.2
  · exact selectRequests_filter_sublist collection _

/-- Witness for C3: on a five-folder collection shaped like the
repository's, the request `Get User Profile` selected by the smoke
filter comes from one of the two named folders, and the whole smoke
selection is a sublist of the full selection. -/
theorem C3_smoke_folder_selection_witness :
    runOptions somePaths smokeOptions "folder" =
      some (JSVal.strList ["Authentication", "Profile & User Info"]) ∧
    "Get User Profile" ∈
      selectRequests smokeCollection (some ["Authentication", "Profile & User Info"]) ∧
    (∃ f, f ∈ smokeCollection ∧
      (f.name = "Authentication" ∨ f.name = "Profile & User Info") ∧
      "Get User Profile" ∈ f.requests) ∧
    List.Sublist
      (selectRequests smokeCollection (some ["Authentication", "Profile & User Info"]))
      (selectRequests smokeCollection none) := by
  have h := C3_smoke_folder_selection somePaths smokeCollection
  exact ⟨h.1, by decide, h.2.1 "Get User Profile" (by decide), h.2.2⟩

/-! ## Claims about token acquisition error handling (C4) -/

/-- Claim C4 (as stated) is false on the code: on a success status with
a malformed payload (an empty JSON object, no `access_token` field),
`refreshAccessToken` does not fail — it returns the malformed body
unchanged to its caller. -/
theorem C4_counterexample :
    (refreshAccessToken helper0 "rt" okEmptyNet).result = Except.ok [] ∧
    (∀ e, (refreshAccessToken helper0 "rt" okEmptyNet).result ≠ Except.error e) ∧
    "access_token" ∉ ([] : List (String × JSVal)).map Prod.fst := by
  refine ⟨rfl, ?_, by decide⟩
  intro e he
  simp [refreshAccessToken, okEmptyNet, refreshRequest] at he

/-- Claim C4 (amended): token refresh and code exchange fail (throw)
exactly when the endpoint's response has a non-success status; on a
success status the parsed JSON payload is returned to the caller
as-is, with no check that `access_token` is present. -/
theorem C4_error_iff_status_not_ok (h : GmailOAuthHelper) (rt code : String)
    (net : FetchRequest → HttpResponse) :
    ((∃ e, (refreshAccessToken h rt net).result = Except.error e) ↔
        (net (refreshRequest h rt)).ok = false) ∧
    ((net (refreshRequest h rt)).ok = true →
        (refreshAccessToken h rt net).result =
          Except.ok (net (refreshRequest h rt)).jsonBody) ∧
    ((∃ e, (exchangeCodeForTokens h code net).result = Except.error e) ↔
        (net (exchangeRequest h code)).ok = false) ∧
    ((net (exchangeRequest h code)).ok = true →
        (exchangeCodeForTokens h code net).result =
          Except.ok (net (exchangeRequest h code)).jsonBody) := by
  refine ⟨?_, ?_, ?_, ?_⟩
  · cases hok : (net (refreshRequest h rt)).ok <;> simp [refreshAccessToken, hok]
  · intro hok
    simp [refreshAccessToken, hok]
  · cases hok : (net (exchangeRequest h code)).ok <;>
      simp [exchangeCodeForTokens, hok]
  · intro hok
    simp [exchangeCodeForTokens, hok]

/-- Witness for C4: with a well-formed token response the refresh
returns the payload; with a 400 response it fails. -/
theorem C4_error_iff_status_not_ok_witness :
    (refreshAccessToken helper0 "rt" tokenNet).result =
      Except.ok [("access_token", JSVal.str "ya29.tok"), ("expires_in", JSVal.num 3599),
                 ("token_type", JSVal.str "Bearer")] ∧
    (∃ e, (refreshAccessToken helper0 "rt" badNet).result = Except.error e) := by
  have h1 := C4_error_iff_status_not_ok helper0 "rt" "c" tokenNet
  have h2 := C4_error_iff_status_not_ok helper0 "rt" "c" badNet
  exact ⟨h1.2.1 rfl, h2.1.mpr rfl⟩

/-! ## Claims about the token request shape (C5) -/

/-- Claim C5 (as stated) is false on the code for the initial exchange:
the form body also contains `redirect_uri`, a fifth field outside the
claimed set `{client_id, client_secret, grant_type, code}`. -/
theorem C5_counterexample :
    (exchangeRequest helper0 "thecode").bodyFields.map Prod.fst =
      ["client_id", "client_secret", "code", "grant_type", "redirect_uri"] ∧
    "redirect_uri" ∈ (exchangeRequest helper0 "thecode").bodyFields.map Prod.fst ∧
    "redirect_uri" ∉
      (["client_id", "client_secret", "grant_type", "code"] : List String) := by
  exact ⟨rfl, by decide, by decide⟩

/-- Claim C5 (amended): every token acquisition or refresh is a
form-encoded POST to the helper's token URL; the refresh body has
exactly the fields `client_id, client_secret, refresh_token,
grant_type` (with `grant_type=refresh_token`), the exchange body
exactly `client_id, client_secret, code, grant_type, redirect_uri`
(with `grant_type=authorization_code`); each call performs exactly that
one request, and on a success status the parsed JSON response body is
returned to the caller. -/
theorem C5_token_request_shape (h : GmailOAuthHelper) (rt code : String)
    (net : FetchRequest → HttpResponse) :
    (refreshRequest h rt).method = "POST" ∧
    (refreshRequest h rt).url = h.tokenUrl ∧
    (refreshRequest h rt).contentType = "application/x-www-form-urlencoded" ∧
    (refreshRequest h rt).bodyFields.map Prod.fst =
      ["client_id", "client_secret", "refresh_token", "grant_type"] ∧
    List.lookup "grant_type" (refreshRequest h rt).bodyFields = some "refresh_token" ∧
    (exchangeRequest h code).method = "POST" ∧
    (exchangeRequest h code).url = h.tokenUrl ∧
    (exchangeRequest h code).contentType = "application/x-www-form-urlencoded" ∧
    (exchangeRequest h code).bodyFields.map Prod.fst =
      ["client_id", "client_secret", "code", "grant_type", "redirect_uri"] ∧
    List.lookup "grant_type" (exchangeRequest h code).bodyFields =
      some "authorization_code" ∧
    (refreshAccessToken h rt net).trace =
      [Effect.networkCall (refreshRequest h rt)] ∧
    (exchangeCodeForTokens h code net).trace =
      [Effect.networkCall (exchangeRequest h code)] ∧
    ((net (refreshRequest h rt)).ok = true →
      (refreshAccessToken h rt net).result =
        Except.ok (net (refreshRequest h rt)).jsonBody) ∧
    ((net (exchangeRequest h code)).ok = true →
      (exchangeCodeForTokens h code net).result =
        Except.ok (net (exchangeRequest h code)).jsonBody) := by
  refine ⟨rfl, rfl, rfl, rfl, rfl, rfl, rfl, rfl, rfl, rfl, rfl, rfl, ?_, ?_⟩
  · intro hok
    simp [refreshAccessToken, hok]
  · intro hok
    simp [exchangeCodeForTokens, hok]

/-- Witness for C5: at a concrete helper the refresh body's field names
evaluate to the four expected keys and an OK response's payload is
returned. -/
theorem C5_token_request_shape_witness :
    (refreshRequest helper0 "rt").bodyFields.map Prod.fst =
      ["client_id", "client_secret", "refresh_token", "grant_type"] ∧
    (refreshAccessToken helper0 "rt" tokenNet).result =
      Except.ok (tokenNet (refreshRequest helper0 "rt")).jsonBody := by
  obtain ⟨-, -, -, h4, -, -, -, -, -, -, -, -, h13, -⟩ :=
    C5_token_request_shape helper0 "rt" "c" tokenNet
  exact ⟨h4, h13 rfl⟩

/-! ## Claims about token non-persistence (C8) -/

/-- Claim C8: tokens are never persisted — each credential-manager
operation leaves the helper state unchanged, performs exactly one
network call and no disk write (no effect that outlives the run), and
returns the token payload to its caller. -/
theorem C8_no_token_persistence (h : GmailOAuthHelper) (rt code : String)
    (net : FetchRequest → HttpResponse) :
    (refreshAccessToken h rt net).newState = h ∧
    (exchangeCodeForTokens h code net).newState = h ∧
    (∀ e, e ∈ (refreshAccessToken h rt net).trace → e.isPersist = false) ∧
    (∀ e, e ∈ (exchangeCodeForTokens h code net).trace → e.isPersist = false) ∧
    (∃ req, (refreshAccessToken h rt net).trace = [Effect.networkCall req]) ∧
    (∃ req, (exchangeCodeForTokens h code net).trace = [Effect.networkCall req]) ∧
    ((net (refreshRequest h rt)).ok = true →
      (refreshAccessToken h rt net).result =
        Except.ok (net (refreshRequest h rt)).jsonBody) := by
  refine ⟨rfl, rfl, ?_, ?_, ⟨_, rfl⟩, ⟨_, rfl⟩, ?_⟩
  · intro e he
    simp only [refreshAccessToken, List.mem_singleton] at he
    subst he
    rfl
  · intro e he
    simp only [exchangeCodeForTokens, List.mem_singleton] at he
    subst he
    rfl
  · intro hok
    simp [refreshAccessToken, hok]

/-- Witness for C8: at a concrete helper and network, the one recorded
effect is a network call (not a persist), and the payload is returned. -/
theorem C8_no_token_persistence_witness :
    Effect.isPersist (Effect.networkCall (refreshRequest helper0 "rt")) = false ∧
    (refreshAccessToken helper0 "rt" tokenNet).newState = helper0 ∧
    (refreshAccessToken helper0 "rt" tokenNet).result =
      Except.ok (tokenNet (refreshRequest helper0 "rt")).jsonBody := by
  have h := C8_no_token_persistence helper0 "rt" "c" tokenNet
  exact ⟨h.2.2.1 _ (by decide), h.1, h.2.2.2.2.2.2 rfl⟩

/-! ## Claims about token caching (C6) -/

/-- A fixed acquisition returning a token valid until instant 1000. -/
def fixedAcquire : Unit → CachedToken :=
  fun _ => { accessToken := "tok-1", expiresAt := 1000 }

/-- Claim C6: within one run, when the second of two authorized
requests arrives while the first acquired token's expiry is still more
than the safety margin in the future, `getValidToken` returns the
cached token and makes no further acquisition call — the two requests
trigger exactly one token acquisition in total. -/
theorem C6_token_cache_single_acquisition (t1 t2 : Int) (acquire : Unit → CachedToken)
    (hmargin : t2 + safetyMarginSecs < (acquire ()).expiresAt) :
    (getValidToken none t1 acquire).2.2 = 1 ∧
    (getValidToken (getValidToken none t1 acquire).1 t2 acquire).2.2 = 0 ∧
    (getValidToken (getValidToken none t1 acquire).1 t2 acquire).2.1 = acquire () ∧
    (getValidToken none t1 acquire).2.2 +
      (getValidToken (getValidToken none t1 acquire).1 t2 acquire).2.2 = 1 := by
  refine ⟨rfl, ?_, ?_, ?_⟩ <;> simp [getValidToken, hmargin]

/-- Witness for C6: a token acquired at time 0 expiring at 1000 is
still cached at time 30 (margin 60s), so the two calls make one
acquisition in total. -/
theorem C6_token_cache_single_acquisition_witness :
    (30 : Int) + safetyMarginSecs < (fixedAcquire ()).expiresAt ∧
    (getValidToken none 0 fixedAcquire).2.2 +
      (getValidToken (getValidToken none 0 fixedAcquire).1 30 fixedAcquire).2.2 = 1 :=
  ⟨by decide, (C6_token_cache_single_acquisition 0 30 fixedAcquire (by decide)).2.2.2⟩
